import Mathlib

/-!
Verification of the cyclips export core (`src/export.py`, `src/utils/video.py`).

The Python code is shallowly embedded as follows:

* JSON numbers, Python `int`s and `decimal.Decimal` values are modelled as exact
  rationals (`ℚ`).  Python's `Decimal` context (28 significant digits) is far wider
  than any value appearing in this pipeline, and `Decimal`/`int`/JSON-number
  comparisons in Python are exact, so this is faithful for the comparisons and the
  additive arithmetic the claims are about.  The one place where the code routes a
  value through an IEEE binary64 `float` — `eval` of the probed `avg_frame_rate`
  string — is modelled explicitly (`PyFloat` below), because one claim is precisely
  about that route.
* Pure computations (scene filtering/rebasing, output-dimension arithmetic,
  command-argument construction) are embedded as Lean functions, translated
  line by line.
* Effectful steps are embedded as explicit outcome values.  Each external-tool
  wrapper in `utils/video.py` calls `subprocess.run(..., check=True)` inside
  `try: ... except subprocess.CalledProcessError as e: print(...)`, so a non-zero
  exit raises `CalledProcessError`, which the wrapper itself catches and prints;
  the wrapper then returns `None`.  This is embedded as a total function to a
  result type distinguishing the printed-success and printed-error continuations.
* The orchestrator `Exporter.export` is embedded as `export_run`, a function from
  the inputs to the final outcome (which uncaught exception, if any, escapes, and
  whether a file was produced at the destination).  External tools are assumed to
  succeed exactly when all their input files exist; which intermediate files exist
  is then tracked explicitly, mirroring the scratch-directory contents.
-/

/-! ## Data model: scene records

A record of the scenes document (`{start_time, end_time, type, ...}`).  The fill
parameters (`top_left`, `crop_width`, `crop_height`) are consumed only by
`apply_fill` and are passed to its embedding directly; the pipeline control flow
reads only the three fields below. -/

structure SceneJson where
  start_time : ℚ
  end_time : ℚ
  type : String
deriving DecidableEq, Inhabited

/-! ## Python `round` and the even-dimension rounding used by the transforms -/

/-- Python 3 `round(x)` (ROUND_HALF_EVEN, also the `decimal` default): the nearest
integer, ties going to the even neighbour. -/
def pyRound (q : ℚ) : ℤ :=
  if q - ⌊q⌋ < 1/2 then ⌊q⌋
  else if 1/2 < q - ⌊q⌋ then ⌊q⌋ + 1
  else if ⌊q⌋ % 2 = 0 then ⌊q⌋ else ⌊q⌋ + 1

/-- The `round(x / 2) * 2` idiom of `apply_fit` / `apply_fill` (`utils/video.py`):
round a target dimension to an even integer. -/
def evenRound (x : ℚ) : ℤ :=
  pyRound (x / 2) * 2

/-- `m` is a nearest even integer to `x`. -/
def nearestEven (x : ℚ) (m : ℤ) : Prop :=
  Even m ∧ ∀ k : ℤ, Even k → |x - (m : ℚ)| ≤ |x - (k : ℚ)|

/-! ## Scene loading, filtering and rebasing (`Exporter._get_scenes`) -/

/-- The filter predicate of `Exporter._get_scenes` (export.py line 194):
`not (scene["end_time"] < start or scene["start_time"] > end)`. -/
def scene_in_range (start end_ : ℚ) (s : SceneJson) : Bool :=
  !(decide (s.end_time < start) || decide (s.start_time > end_))

/-- One iteration of the reset-mode loop (export.py lines 206-208): subtract the
offset from both boundaries, clamping negatives to `0`. -/
def clampSub (offset : ℚ) (s : SceneJson) : SceneJson :=
  { s with start_time := max (s.start_time - offset) 0
         , end_time := max (s.end_time - offset) 0 }

/-- `filtered_boxes[0]["start_time"] = Decimal(0)` (export.py line 210). -/
def setFirstStart (v : ℚ) : List SceneJson → List SceneJson
  | [] => []
  | s :: rest => { s with start_time := v } :: rest

/-- `filtered_boxes[-1]["end_time"] = end - start` (export.py line 211). -/
def setLastEnd (v : ℚ) : List SceneJson → List SceneJson
  | [] => []
  | [s] => [{ s with end_time := v }]
  | s :: t :: rest => s :: setLastEnd v (t :: rest)

/-- `Exporter._get_scenes`: filter the loaded scenes to those meeting the requested
range, convert boundaries to high-precision numbers (the identity in this exact
model), and in reset mode rebase them to range-relative coordinates.  The reset
branch runs only when the filtered list is non-empty (`if reset and filtered_boxes`). -/
def get_scenes (start end_ : ℚ) (all_scenes : List SceneJson) (reset : Bool) :
    List SceneJson :=
  let filtered := all_scenes.filter (scene_in_range start end_)
  if reset && !filtered.isEmpty then
    setLastEnd (end_ - start) (setFirstStart 0 (filtered.map (clampSub start)))
  else filtered

/-! ## Errors

The exception types that actually occur in the code.  The spec's error taxonomy
(`ProbeError`, `InvalidRangeError`, `UnsupportedSceneTypeError`, `ToolInvocationError`,
`ConcatError`, `MissingFontDataError`) has no counterpart in the source: the code
raises only the built-ins below. -/

inductive PyError where
  /-- `raise ValueError(msg)` -/
  | valueError (msg : String)
  /-- `subprocess.CalledProcessError` from `subprocess.run(..., check=True)` -/
  | calledProcessError (stderr : String)
  /-- `shutil.copy` on a missing source file -/
  | fileNotFoundError (path : String)
  /-- `scenes[0]` on an empty list -/
  | indexError
  /-- `subprocess.run` handed a `None` argument (`attach_audio` with `audio_path=None`) -/
  | typeError
deriving DecidableEq

/-! ## Temporal trimming (`trim_video`, utils/video.py lines 46-110) -/

/-- Formatting of a seek/duration argument: `f"{x:.6f}"` on a `Decimal` rounds to six
decimal places with the context rounding ROUND_HALF_EVEN. -/
def fmt6 (q : ℚ) : ℚ :=
  (pyRound (q * 1000000) : ℚ) / 1000000

/-- The ffmpeg invocation built by `trim_video`.

* `freeze seek frames`: the sub-frame branch — `-ss seek`, `-vf select=eq(n,0)`,
  `-frames:v frames` with `frames = 1`, and `-an` (the output carries no audio).
* `extract seek dur keepTrack`: the normal branch — `-ss seek`, `-t dur`, audio kept
  iff `keepTrack` (the `no_audio` flag appends `-an`). -/
inductive TrimCommand where
  | freeze (seek : ℚ) (frames : ℕ)
  | extract (seek : ℚ) (dur : ℚ) (keepTrack : Bool)
deriving DecidableEq

/-- `trim_video` up to the external invocation: validates the range (raising
`ValueError` when `duration <= 0` — this raise sits before the `try` block, so it
propagates to the caller), computes `frame_duration = 1/fps`, and selects the
freeze-frame or sub-range command. -/
def trim_video_cmd (start end_ fps : ℚ) (noAudioFlag : Bool) :
    Except PyError TrimCommand :=
  let dur := end_ - start
  if dur ≤ 0 then .error (.valueError "End time must be greater than start time.")
  else if dur ≤ 1 / fps then .ok (.freeze (fmt6 start) 1)
  else .ok (.extract (fmt6 start) (fmt6 dur) (!noAudioFlag))

/-! ## External-tool wrappers (`utils/video.py`, `Exporter._concatenate_videos`)

Each wrapper runs its command with `check=True` inside
`try: ... except subprocess.CalledProcessError as e: print(f"Error ...: e.stderr")`.
`ToolCallResult` records how the wrapper returns: both constructors are normal
returns (the function falls off the end returning `None`); no exception escapes. -/

inductive ToolCallResult where
  /-- exit code `0`: the success message is printed and the wrapper returns. -/
  | printedSuccess (msg : String)
  /-- non-zero exit: `CalledProcessError` is caught, the error message (carrying the
  tool's stderr) is printed, and the wrapper returns. -/
  | printedError (msg : String)
deriving DecidableEq

/-- `subprocess.run(command, ..., check=True)`: raises `CalledProcessError` carrying
the tool's stderr exactly when the exit code is non-zero. -/
def subprocess_run_check (exit_code : ℤ) (stderr : String) : Except String Unit :=
  if exit_code = 0 then .ok () else .error stderr

/-- The `try/except` tail of `trim_video` (lines 97-110). -/
def trim_video_toolCall (exit_code : ℤ) (stderr output_path : String) : ToolCallResult :=
  match subprocess_run_check exit_code stderr with
  | .ok () => .printedSuccess ("Video trimmed and saved to " ++ output_path)
  | .error e => .printedError ("Error trimming video: " ++ e)

/-- The `try/except` tail of `extract_audio` (lines 131-144). -/
def extract_audio_toolCall (exit_code : ℤ) (stderr output_path : String) : ToolCallResult :=
  match subprocess_run_check exit_code stderr with
  | .ok () => .printedSuccess ("Audio extracted and saved to " ++ output_path)
  | .error e => .printedError ("Error extracting audio: " ++ e)

/-- The `try/except` tail of `attach_audio` (lines 245-258). -/
def attach_audio_toolCall (exit_code : ℤ) (stderr output_path : String) : ToolCallResult :=
  match subprocess_run_check exit_code stderr with
  | .ok () => .printedSuccess ("Audio attached successfully and saved to " ++ output_path)
  | .error e => .printedError ("Error attaching audio: " ++ e)

/-- The `try/except` tail of `Exporter._concatenate_videos` (export.py lines 172-185). -/
def concatenate_videos_toolCall (exit_code : ℤ) (stderr : String) : ToolCallResult :=
  match subprocess_run_check exit_code stderr with
  | .ok () => .printedSuccess "Successfully concatenated segments"
  | .error e => .printedError ("Error concatenating segments: " ++ e)

/-- The ffmpeg invocation of `attach_subtitles` with its
`except subprocess.CalledProcessError` clause (lines 290-304). -/
def attach_subtitles_toolCall (exit_code : ℤ) (stderr output_path : String) : ToolCallResult :=
  match subprocess_run_check exit_code stderr with
  | .ok () => .printedSuccess
      ("Subtitles and font attached successfully. Output saved to " ++ output_path)
  | .error e => .printedError ("Error attaching subtitles: " ++ e)

/-! ## Subtitle attachment (`attach_subtitles`, utils/video.py lines 260-306) -/

/-- Does the subtitle text at this position match `re.search(r"data: (.+)", ...)`?
That is: the literal `data: ` followed by at least one character other than a
newline (`.` does not match `\n`). -/
def startsWithFont : List Char → Bool
  | 'd' :: 'a' :: 't' :: 'a' :: ':' :: ' ' :: c :: _ => c != '\n'
  | _ => false

/-- Scan the whole document for a font-payload match, as `re.search` does. -/
def hasFontDataList : List Char → Bool
  | [] => false
  | c :: rest => startsWithFont (c :: rest) || hasFontDataList rest

/-- Whether `re.search(r"data: (.+)", subtitle_content)` finds a match. -/
def hasFontData (content : String) : Bool :=
  hasFontDataList content.data

/-- `attach_subtitles` as observed by its caller.  Arguments: the subtitle document's
text and whether the input video artifact exists (the external burn-in succeeds
exactly when it does).  Result: `.ok produced` — the function returned normally and
`produced` says whether the output file was written.

When no font line matches, the code raises `ValueError("No Base64 font data found in
the subtitles file.")`, but the function's own `except ValueError` clause catches it
and prints `Error processing font data: ...`; when the tool fails, its own
`except subprocess.CalledProcessError` clause catches and prints.  On every path the
function returns normally, so no `.error` value is reachable. -/
def attach_subtitles_run (content : String) (inputExists : Bool) :
    Except PyError Bool :=
  if hasFontData content then
    if inputExists then .ok true else .ok false
  else .ok false

/-! ## Scene transforms (`apply_fit`, `apply_fill`) -/

/-- Output dimensions of a transform. -/
structure OutDims where
  output_width : ℤ
  output_height : ℤ
deriving DecidableEq

/-- The target-dimension computation of `apply_fit` (utils/video.py lines 150-159):
pick height-constrained sizing when the source aspect exceeds the destination
aspect, else width-constrained, then round both dimensions to even integers. -/
def apply_fit_dims (video_width video_height aspect_ratio_width aspect_ratio_height : ℚ) :
    OutDims :=
  if video_width / video_height > aspect_ratio_width / aspect_ratio_height then
    { output_width := evenRound (video_height * (aspect_ratio_width / aspect_ratio_height))
      output_height := evenRound video_height }
  else
    { output_width := evenRound video_width
      output_height := evenRound (video_width * (aspect_ratio_height / aspect_ratio_width)) }

/-- The output-dimension computation of `apply_fill` (utils/video.py lines 197-201):
scale the normalized crop size by the source dimensions and round to even. -/
def apply_fill_dims (crop_width_n crop_height_n video_width video_height : ℚ) : OutDims :=
  let crop_width := crop_width_n * video_width
  let crop_height := crop_height_n * video_height
  { output_width := pyRound (crop_width / 2) * 2
    output_height := pyRound (crop_height / 2) * 2 }

/-! ## The orchestrator (`Exporter.export` / `Exporter._create_scene`) -/

/-- `Exporter._create_scene` for one scene, as seen by the worker thread: first
`trim_video` validates the scene's own range (its `ValueError` for a non-positive
duration propagates), then the type dispatch runs `apply_fill` / `apply_fit`, and
any other type hits `raise ValueError(f"Unknown scene type: ...")` (export.py
line 151).  The external transforms themselves are assumed to succeed. -/
def create_scene_result (s : SceneJson) : Except PyError Unit :=
  if s.end_time - s.start_time ≤ 0 then
    .error (.valueError "End time must be greater than start time.")
  else if s.type = "fill" then .ok ()
  else if s.type = "fit" then .ok ()
  else .error (.valueError ("Unknown scene type: " ++ s.type))

/-- Whether the worker for scene `s` produced its scratch file `scene_i.mp4`:
exactly when `_create_scene` ran to completion. -/
def scene_file_ok (s : SceneJson) : Bool :=
  match create_scene_result s with
  | .ok _ => true
  | .error _ => false

/-- Outcome of one `Exporter.export` call: the uncaught exception that escaped (if
any) and whether a file was produced at the destination path. -/
structure ExportOutcome where
  raised : Option PyError
  outputProduced : Bool
deriving DecidableEq

/-! The next three definitions embed `Exporter.export` stage by stage, under the
modelling assumption that every external tool succeeds exactly when all of its
input files exist.

* The initial `trim_video` raises `ValueError` (uncaught) when `end - start <= 0`.
* `audio_path` is set iff `duration > min_frame_duration` where
  `min_frame_duration = 1 / video_fps`; extraction from the trimmed clip succeeds.
* Scenes come from `_get_scenes(start, end, scenes_path, reset=False)`.
* The per-scene workers run through `ThreadPoolExecutor().map(...)`, whose returned
  iterator is never consumed — a worker's exception is stored in its future and
  discarded, so a failing scene leaves its scratch slot empty and the export
  continues.
* Concatenation reads the play-list; it succeeds iff every listed scene file
  exists.  A failure is caught and printed by `_concatenate_videos`.
* The post-concatenation `trim_video(start=max(start - scenes[0]["start_time"], 0),
  end=end)` evaluates `scenes[0]` — an uncaught `IndexError` when the filtered
  scene list is empty.  Its `ValueError` guard propagates likewise; a tool failure
  (missing input) is caught inside `trim_video`, so `intermediate_clip.mp4` exists
  iff `concatenated_clip.mp4` does.
* `attach_audio` with `audio_path=None` puts `None` into the subprocess argument
  list — an uncaught `TypeError`.  With a real audio path it produces
  `final_trimmed_clip.mp4` iff the intermediate clip exists, so the final artifact
  exists iff every scene file was produced.
* With subtitles, `attach_subtitles` never lets an exception escape
  (`attach_subtitles_run`); without them, `shutil.copy` raises an uncaught
  `FileNotFoundError` when `final_trimmed_clip.mp4` is missing. -/

/-- The delivery stage: `attach_subtitles(...)` when a subtitles document was
supplied, else `shutil.copy(final_trimmed_path, output_path)`. -/
def export_finish (subtitles : Option String) (finalTrimmed : Bool) : ExportOutcome :=
  match subtitles with
  | some content =>
    match attach_subtitles_run content finalTrimmed with
    | .ok produced => { raised := none, outputProduced := produced }
    | .error e => { raised := some e, outputProduced := false }
  | none =>
    if finalTrimmed then { raised := none, outputProduced := true }
    else { raised := some (.fileNotFoundError "final_trimmed_clip.mp4")
           outputProduced := false }

/-- Stages of `Exporter.export` from the scene fan-out onwards, given the filtered
scene list.  The scene workers, concatenation, the post-concatenation trim and
audio attachment are folded into the file-existence bookkeeping described at
`export_run`. -/
def export_after_scenes (scenes : List SceneJson) (start end_ video_fps : ℚ)
    (subtitles : Option String) : ExportOutcome :=
  match scenes with
  | [] => { raised := some .indexError, outputProduced := false }
  | s0 :: rest =>
    if end_ - max (start - s0.start_time) 0 ≤ 0 then
      { raised := some (.valueError "End time must be greater than start time.")
        outputProduced := false }
    else if 1 / video_fps < end_ - start then
      export_finish subtitles (((s0 :: rest).map scene_file_ok).all id)
    else { raised := some .typeError, outputProduced := false }

/-- One `Exporter.export` call: the initial trim's range guard, then the stages on
the filtered scene list. -/
def export_run (all_scenes : List SceneJson) (start end_ video_fps : ℚ)
    (subtitles : Option String) : ExportOutcome :=
  if end_ - start ≤ 0 then
    { raised := some (.valueError "End time must be greater than start time.")
      outputProduced := false }
  else
    export_after_scenes (get_scenes start end_ all_scenes false) start end_ video_fps subtitles

/-! ## The frame-rate value (`Exporter.export`, export.py line 35)

`video_fps = Decimal(eval(metadata["streams"][0]["avg_frame_rate"]))`: ffprobe
reports `avg_frame_rate` as a fraction string such as `"30000/1001"`, and `eval` of
that string performs Python 3 *float* true-division, returning a finite IEEE
binary64 value.  `Decimal(float)` converts that float exactly.  Every finite
binary64 value is `m * 2^e` for integers `m, e`, so the stored frame rate is some
dyadic rational — which dyadic one depends on the IEEE rounding, and nothing in the
claims needs it pinned down. -/

/-- A finite Python float: value `mantissa * 2 ^ exponent`. -/
structure PyFloat where
  mantissa : ℤ
  exponent : ℤ

/-- The exact rational value of a finite float. -/
def PyFloat.toRat (f : PyFloat) : ℚ :=
  (f.mantissa : ℚ) * (2 : ℚ) ^ f.exponent

/-- The frame-rate value `Exporter.export` works with: the (exactly converted)
`Decimal` of the float produced by `eval` of the probed fraction string. -/
def export_video_fps (f : PyFloat) : ℚ :=
  f.toRat

/-! ## Helper lemmas -/

theorem pyRound_near (q : ℚ) : |q - (pyRound q : ℚ)| ≤ 1/2 := by
  unfold pyRound
  have hfl : ((⌊q⌋ : ℤ) : ℚ) ≤ q := Int.floor_le q
  have hlt : q < (⌊q⌋ : ℤ) + 1 := Int.lt_floor_add_one q
  split_ifs with h1 h2 h3 <;> rw [abs_le] <;> constructor <;> push_cast <;> linarith

theorem pyRound_min (q : ℚ) (k : ℤ) :
    |q - (pyRound q : ℚ)| ≤ |q - (k : ℚ)| := by
  rcases eq_or_ne k (pyRound q) with rfl | hne
  · exact le_rfl
  · have h1 := pyRound_near q
    have h2 : (1 : ℚ) ≤ |(pyRound q : ℚ) - (k : ℚ)| := by
      have h0 : (1 : ℤ) ≤ |pyRound q - k| := Int.one_le_abs (sub_ne_zero.mpr (Ne.symm hne))
      exact_mod_cast h0
    have h3 : |(pyRound q : ℚ) - (k : ℚ)| ≤ |(pyRound q : ℚ) - q| + |q - (k : ℚ)| :=
      abs_sub_le _ _ _
    have h4 : |(pyRound q : ℚ) - q| = |q - (pyRound q : ℚ)| := abs_sub_comm _ _
    linarith

theorem evenRound_even (x : ℚ) : Even (evenRound x) :=
  ⟨pyRound (x / 2), by unfold evenRound; ring⟩

theorem evenRound_nearestEven (x : ℚ) : nearestEven x (evenRound x) := by
  refine ⟨evenRound_even x, fun k hk => ?_⟩
  obtain ⟨j, rfl⟩ := hk
  have h := pyRound_min (x / 2) j
  have e1 : x - ((evenRound x : ℤ) : ℚ) = 2 * (x / 2 - (pyRound (x / 2) : ℚ)) := by
    unfold evenRound; push_cast; ring
  have e2 : x - ((j + j : ℤ) : ℚ) = 2 * (x / 2 - (j : ℚ)) := by push_cast; ring
  rw [e1, e2, abs_mul, abs_mul]
  have h2 : |(2 : ℚ)| = 2 := by norm_num
  rw [h2]
  linarith

theorem fmt6_near (q : ℚ) : |fmt6 q - q| ≤ 1/2000000 := by
  have h := pyRound_near (q * 1000000)
  have e : fmt6 q - q = ((pyRound (q * 1000000) : ℚ) - q * 1000000) / 1000000 := by
    unfold fmt6; ring
  rw [e, abs_div]
  have h2 : |(1000000 : ℚ)| = 1000000 := by norm_num
  rw [h2, div_le_iff₀ (by norm_num : (0:ℚ) < 1000000)]
  rw [abs_sub_comm] at h
  linarith

theorem setFirstStart_length (v : ℚ) (l : List SceneJson) :
    (setFirstStart v l).length = l.length := by
  cases l <;> simp [setFirstStart]

theorem setLastEnd_length (v : ℚ) (l : List SceneJson) :
    (setLastEnd v l).length = l.length := by
  induction l with
  | nil => simp [setLastEnd]
  | cons s rest ih =>
    cases rest with
    | nil => simp [setLastEnd]
    | cons t r => simpa [setLastEnd] using ih

theorem setFirstStart_getElem?_ne_zero (v : ℚ) (l : List SceneJson) (i : ℕ) (h : i ≠ 0) :
    (setFirstStart v l)[i]? = l[i]? := by
  obtain ⟨j, rfl⟩ := Nat.exists_eq_succ_of_ne_zero h
  cases l <;> simp [setFirstStart]

theorem setFirstStart_end_time (v : ℚ) (l : List SceneJson) (i : ℕ) :
    ((setFirstStart v l)[i]?).map SceneJson.end_time = (l[i]?).map SceneJson.end_time := by
  cases l with
  | nil => simp [setFirstStart]
  | cons s rest => cases i <;> simp [setFirstStart]

theorem setLastEnd_start_time (v : ℚ) (l : List SceneJson) (i : ℕ) :
    ((setLastEnd v l)[i]?).map SceneJson.start_time = (l[i]?).map SceneJson.start_time := by
  induction l generalizing i with
  | nil => simp [setLastEnd]
  | cons s rest ih =>
    cases rest with
    | nil => cases i with
      | zero => simp [setLastEnd]
      | succ j => simp [setLastEnd]
    | cons t r =>
      cases i with
      | zero => simp [setLastEnd]
      | succ j => simpa [setLastEnd] using ih j

theorem setLastEnd_getElem?_ne_last (v : ℚ) (l : List SceneJson) (i : ℕ)
    (h : i + 1 ≠ l.length) : (setLastEnd v l)[i]? = l[i]? := by
  induction l generalizing i with
  | nil => simp [setLastEnd]
  | cons s rest ih =>
    cases rest with
    | nil =>
      obtain ⟨j, rfl⟩ : ∃ j, i = j + 1 := by
        cases i with
        | zero => simp at h
        | succ j => exact ⟨j, rfl⟩
      simp [setLastEnd]
    | cons t r =>
      cases i with
      | zero => simp [setLastEnd]
      | succ j =>
        have hj : j + 1 ≠ (t :: r).length := by
          simpa [List.length_cons] using h
        simpa [setLastEnd] using ih j hj

theorem setLastEnd_head?_start (v : ℚ) (l : List SceneJson) :
    ((setLastEnd v l).head?).map SceneJson.start_time = (l.head?).map SceneJson.start_time := by
  cases l with
  | nil => simp [setLastEnd]
  | cons s rest => cases rest <;> simp [setLastEnd]

theorem setLastEnd_getLast?_end (v : ℚ) (l : List SceneJson) (h : l ≠ []) :
    ((setLastEnd v l).getLast?).map SceneJson.end_time = some v := by
  induction l with
  | nil => exact absurd rfl h
  | cons s rest ih =>
    cases rest with
    | nil => simp [setLastEnd]
    | cons t r =>
      obtain ⟨u, l', he⟩ : ∃ u l', setLastEnd v (t :: r) = u :: l' := by
        cases r <;> exact ⟨_, _, rfl⟩
      have hrec := ih (by simp)
      calc ((setLastEnd v (s :: t :: r)).getLast?).map SceneJson.end_time
      _ = ((s :: setLastEnd v (t :: r)).getLast?).map SceneJson.end_time := rfl
      _ = ((setLastEnd v (t :: r)).getLast?).map SceneJson.end_time := by
          rw [he, List.getLast?_cons_cons]
      _ = some v := hrec

theorem setFirstStart_forall (P : SceneJson → Prop) (v : ℚ) (l : List SceneJson)
    (hl : ∀ t ∈ l, P t) (hv : ∀ t ∈ l, P { t with start_time := v }) :
    ∀ s ∈ setFirstStart v l, P s := by
  cases l with
  | nil => simp [setFirstStart]
  | cons s rest =>
    intro x hx
    rcases List.mem_cons.mp hx with rfl | hx
    · exact hv s (by simp)
    · exact hl x (List.mem_cons_of_mem _ hx)

theorem setLastEnd_forall (P : SceneJson → Prop) (v : ℚ) (l : List SceneJson)
    (hl : ∀ t ∈ l, P t) (hv : ∀ t ∈ l, P { t with end_time := v }) :
    ∀ s ∈ setLastEnd v l, P s := by
  induction l with
  | nil => simp [setLastEnd]
  | cons s rest ih =>
    cases rest with
    | nil =>
      intro x hx
      rcases List.mem_cons.mp hx with rfl | hx
      · exact hv s (by simp)
      · simp at hx
    | cons t r =>
      intro x hx
      rcases List.mem_cons.mp hx with rfl | hx
      · exact hl x (by simp)
      · exact ih (fun u hu => hl u (by simp [hu])) (fun u hu => hv u (by simp [hu])) x hx

/-- No dyadic rational — in particular no finite binary64 value — equals the exact
NTSC frame rate 30000/1001 (its reduced denominator is 1001, which is odd). -/
theorem dyadic_ne_ntsc (m e : ℤ) : (m : ℚ) * (2 : ℚ) ^ e ≠ 30000 / 1001 := by
  intro hf
  have hden : ((30000 : ℚ) / 1001).den = 1001 := by norm_num
  cases e with
  | ofNat k =>
    rw [Int.ofNat_eq_natCast, zpow_natCast] at hf
    have h1 : ((m * 2 ^ k : ℤ) : ℚ) = 30000 / 1001 := by push_cast; exact hf
    have h2 := congrArg Rat.den h1
    rw [Rat.den_intCast, hden] at h2
    norm_num at h2
  | negSucc k =>
    rw [zpow_negSucc] at hf
    have h1 : Rat.divInt m (2 ^ (k + 1)) = 30000 / 1001 := by
      rw [Rat.divInt_eq_div, div_eq_mul_inv]
      push_cast
      exact hf
    have h2 : (((Rat.divInt m (2 ^ (k + 1))).den : ℤ)) ∣ 2 ^ (k + 1) := Rat.den_dvd _ _
    rw [h1, hden] at h2
    have h3 : (1001 : ℕ) ∣ 2 ^ (k + 1) := by exact_mod_cast h2
    have hcop : Nat.Coprime 1001 2 := by decide
    have h4 : (1001 : ℕ) = 1 := (hcop.pow_right (k + 1)).eq_one_of_dvd h3
    norm_num at h4

/-! ## Claims -/

/-- C4: for every scenes document and requested range, the scene filter of
`Exporter._get_scenes` returns exactly the scenes satisfying
`not (scene.end_time < rangeStart or scene.start_time > rangeEnd)`, and no others. -/
theorem C4_scene_filter_exact (all_scenes : List SceneJson) (rangeStart rangeEnd : ℚ)
    (s : SceneJson) :
    s ∈ get_scenes rangeStart rangeEnd all_scenes false ↔
      s ∈ all_scenes ∧ ¬(s.end_time < rangeStart ∨ s.start_time > rangeEnd) := by
  unfold get_scenes
  simp [scene_in_range, List.mem_filter, not_or]

/-- C5: rebasing a non-empty filtered scene list in reset mode over
`[rangeStart, rangeEnd]` subtracts `rangeStart` from every boundary with negatives
clamped to `0` (the two boundaries subsequently forced aside), the first scene's
`start_time` is exactly `0`, the last scene's `end_time` is exactly
`rangeEnd - rangeStart`, and no rebased time is negative. -/
theorem C5_reset_rebase (all_scenes : List SceneJson) (rangeStart rangeEnd : ℚ)
    (hrange : rangeStart ≤ rangeEnd)
    (hne : all_scenes.filter (scene_in_range rangeStart rangeEnd) ≠ []) :
    (∀ i : ℕ, i ≠ 0 →
        ((get_scenes rangeStart rangeEnd all_scenes true)[i]?).map SceneJson.start_time =
          ((all_scenes.filter (scene_in_range rangeStart rangeEnd))[i]?).map
            (fun s => max (s.start_time - rangeStart) 0)) ∧
    (∀ i : ℕ, i + 1 ≠ (all_scenes.filter (scene_in_range rangeStart rangeEnd)).length →
        ((get_scenes rangeStart rangeEnd all_scenes true)[i]?).map SceneJson.end_time =
          ((all_scenes.filter (scene_in_range rangeStart rangeEnd))[i]?).map
            (fun s => max (s.end_time - rangeStart) 0)) ∧
    ((get_scenes rangeStart rangeEnd all_scenes true).head?).map SceneJson.start_time =
      some 0 ∧
    ((get_scenes rangeStart rangeEnd all_scenes true).getLast?).map SceneJson.end_time =
      some (rangeEnd - rangeStart) ∧
    (∀ s ∈ get_scenes rangeStart rangeEnd all_scenes true,
        0 ≤ s.start_time ∧ 0 ≤ s.end_time) := by
  have hG : get_scenes rangeStart rangeEnd all_scenes true =
      setLastEnd (rangeEnd - rangeStart)
        (setFirstStart 0
          ((all_scenes.filter (scene_in_range rangeStart rangeEnd)).map
            (clampSub rangeStart))) := by
    unfold get_scenes
    have hE : (all_scenes.filter (scene_in_range rangeStart rangeEnd)).isEmpty = false := by
      simpa [List.isEmpty_iff] using hne
    simp [hE]
  refine ⟨?_, ?_, ?_, ?_, ?_⟩
  · intro i hi
    rw [hG, setLastEnd_start_time, setFirstStart_getElem?_ne_zero _ _ _ hi,
        List.getElem?_map, Option.map_map]
    rfl
  · intro i hi
    have hlen : i + 1 ≠
        (setFirstStart 0
          ((all_scenes.filter (scene_in_range rangeStart rangeEnd)).map
            (clampSub rangeStart))).length := by
      rwa [setFirstStart_length, List.length_map]
    rw [hG, setLastEnd_getElem?_ne_last _ _ _ hlen, setFirstStart_end_time,
        List.getElem?_map, Option.map_map]
    rfl
  · obtain ⟨f0, F', hF⟩ := List.exists_cons_of_ne_nil hne
    rw [hG, setLastEnd_head?_start, hF]
    simp [setFirstStart]
  · rw [hG]
    apply setLastEnd_getLast?_end
    have hpos : 0 <
        (setFirstStart 0
          ((all_scenes.filter (scene_in_range rangeStart rangeEnd)).map
            (clampSub rangeStart))).length := by
      rw [setFirstStart_length, List.length_map]
      exact List.length_pos.mpr hne
    exact List.ne_nil_of_length_pos hpos
  · rw [hG]
    have base : ∀ t ∈ (all_scenes.filter (scene_in_range rangeStart rangeEnd)).map
        (clampSub rangeStart), 0 ≤ t.start_time ∧ 0 ≤ t.end_time := by
      intro t ht
      obtain ⟨u, _, rfl⟩ := List.mem_map.mp ht
      exact ⟨le_max_right _ _, le_max_right _ _⟩
    have mid : ∀ t ∈ setFirstStart 0
        ((all_scenes.filter (scene_in_range rangeStart rangeEnd)).map
          (clampSub rangeStart)), 0 ≤ t.start_time ∧ 0 ≤ t.end_time :=
      setFirstStart_forall _ _ _ base (fun t ht => ⟨le_rfl, (base t ht).2⟩)
    exact setLastEnd_forall _ _ _ mid
      (fun t ht => ⟨(mid t ht).1, sub_nonneg.mpr hrange⟩)

/-- C5 witness: the reset-mode rebase over range `[2, 5]` of a two-scene document. -/
theorem C5_reset_rebase_witness :
    (2 : ℚ) ≤ 5 ∧
    ([⟨1, 3, "fill"⟩, ⟨3, 6, "fit"⟩] : List SceneJson).filter (scene_in_range 2 5) ≠ [] ∧
    ((∀ i : ℕ, i ≠ 0 →
        ((get_scenes 2 5 [⟨1, 3, "fill"⟩, ⟨3, 6, "fit"⟩] true)[i]?).map SceneJson.start_time =
          ((([⟨1, 3, "fill"⟩, ⟨3, 6, "fit"⟩] : List SceneJson).filter
            (scene_in_range 2 5))[i]?).map (fun s => max (s.start_time - 2) 0)) ∧
    (∀ i : ℕ, i + 1 ≠ (([⟨1, 3, "fill"⟩, ⟨3, 6, "fit"⟩] : List SceneJson).filter
          (scene_in_range 2 5)).length →
        ((get_scenes 2 5 [⟨1, 3, "fill"⟩, ⟨3, 6, "fit"⟩] true)[i]?).map SceneJson.end_time =
          ((([⟨1, 3, "fill"⟩, ⟨3, 6, "fit"⟩] : List SceneJson).filter
            (scene_in_range 2 5))[i]?).map (fun s => max (s.end_time - 2) 0)) ∧
    ((get_scenes 2 5 [⟨1, 3, "fill"⟩, ⟨3, 6, "fit"⟩] true).head?).map SceneJson.start_time =
      some 0 ∧
    ((get_scenes 2 5 [⟨1, 3, "fill"⟩, ⟨3, 6, "fit"⟩] true).getLast?).map SceneJson.end_time =
      some (5 - 2) ∧
    (∀ s ∈ get_scenes 2 5 [⟨1, 3, "fill"⟩, ⟨3, 6, "fit"⟩] true,
        0 ≤ s.start_time ∧ 0 ≤ s.end_time)) :=
  ⟨by decide, by decide, C5_reset_rebase [⟨1, 3, "fill"⟩, ⟨3, 6, "fit"⟩] 2 5
    (by decide) (by decide)⟩

/-- C3 (corrected): `Exporter.export` obtains `video_fps` as
`Decimal(eval(avg_frame_rate))`, where `eval` of the fraction string performs
binary64 float division.  The stored frame rate is therefore a dyadic rational;
for a source whose exact frame rate is the NTSC fraction 30000/1001 it cannot
equal the exact rational, and the derived frame period `1/video_fps` cannot equal
the exact frame period 1001/30000 either. -/
theorem C3_fps_routed_through_float (f : PyFloat) :
    export_video_fps f ≠ 30000 / 1001 ∧
    1 / export_video_fps f ≠ 1 / (30000 / 1001 : ℚ) := by
  constructor
  · exact dyadic_ne_ntsc f.mantissa f.exponent
  · intro h
    rw [one_div, one_div] at h
    have h2 := congrArg Inv.inv h
    rw [inv_inv, inv_inv] at h2
    exact dyadic_ne_ntsc f.mantissa f.exponent h2

/-- C3 counterexample: at the concrete probed frame-rate field `"30000/1001"`, no
finite float value — hence no possible value of `video_fps` — equals the exact
rational 30000/1001, refuting "obtained ... as an exact rational number, never
routed through a rounded floating-point value". -/
theorem C3_no_float_is_ntsc_exact :
    ¬ ∃ f : PyFloat, export_video_fps f = 30000 / 1001 := by
  rintro ⟨f, hf⟩
  exact dyadic_ne_ntsc f.mantissa f.exponent hf

/-- C6: `apply_fit` picks height-constrained sizing (`output_height = videoHeight`,
`output_width = videoHeight * arW / arH`) when `videoWidth/videoHeight > arW/arH`,
else width-constrained sizing, and rounds both target dimensions to a nearest even
integer. -/
theorem C6_fit_dims (video_width video_height aspect_ratio_width aspect_ratio_height : ℚ)
    (hvh : 0 < video_height) (harw : 0 < aspect_ratio_width)
    (harh : 0 < aspect_ratio_height) :
    (video_width / video_height > aspect_ratio_width / aspect_ratio_height →
        apply_fit_dims video_width video_height aspect_ratio_width aspect_ratio_height =
          { output_width := evenRound (video_height * aspect_ratio_width / aspect_ratio_height)
            output_height := evenRound video_height } ∧
        nearestEven (video_height * aspect_ratio_width / aspect_ratio_height)
          (apply_fit_dims video_width video_height aspect_ratio_width
            aspect_ratio_height).output_width ∧
        nearestEven video_height
          (apply_fit_dims video_width video_height aspect_ratio_width
            aspect_ratio_height).output_height) ∧
    (¬(video_width / video_height > aspect_ratio_width / aspect_ratio_height) →
        apply_fit_dims video_width video_height aspect_ratio_width aspect_ratio_height =
          { output_width := evenRound video_width
            output_height := evenRound (video_width * aspect_ratio_height / aspect_ratio_width) } ∧
        nearestEven video_width
          (apply_fit_dims video_width video_height aspect_ratio_width
            aspect_ratio_height).output_width ∧
        nearestEven (video_width * aspect_ratio_height / aspect_ratio_width)
          (apply_fit_dims video_width video_height aspect_ratio_width
            aspect_ratio_height).output_height) := by
  constructor
  · intro h
    refine ⟨?_, ?_, ?_⟩
    · simp only [apply_fit_dims, if_pos h, mul_div_assoc]
    · simp only [apply_fit_dims, if_pos h]
      simpa [mul_div_assoc] using
        evenRound_nearestEven
          (video_height * (aspect_ratio_width / aspect_ratio_height))
    · simp only [apply_fit_dims, if_pos h]
      exact evenRound_nearestEven video_height
  · intro h
    refine ⟨?_, ?_, ?_⟩
    · simp only [apply_fit_dims, if_neg h, mul_div_assoc]
    · simp only [apply_fit_dims, if_neg h]
      exact evenRound_nearestEven video_width
    · simp only [apply_fit_dims, if_neg h]
      simpa [mul_div_assoc] using
        evenRound_nearestEven
          (video_width * (aspect_ratio_height / aspect_ratio_width))

/-- C6 witness: a 1920x1080 source fit to a 9:16 destination aspect. -/
theorem C6_fit_dims_witness :
    (0 : ℚ) < 1080 ∧ (0 : ℚ) < 9 ∧ (0 : ℚ) < 16 ∧
    (((1920 : ℚ) / 1080 > (9 : ℚ) / 16 →
        apply_fit_dims 1920 1080 9 16 =
          { output_width := evenRound ((1080 : ℚ) * 9 / 16)
            output_height := evenRound (1080 : ℚ) } ∧
        nearestEven ((1080 : ℚ) * 9 / 16) (apply_fit_dims 1920 1080 9 16).output_width ∧
        nearestEven (1080 : ℚ) (apply_fit_dims 1920 1080 9 16).output_height) ∧
    (¬((1920 : ℚ) / 1080 > (9 : ℚ) / 16) →
        apply_fit_dims 1920 1080 9 16 =
          { output_width := evenRound (1920 : ℚ)
            output_height := evenRound ((1920 : ℚ) * 16 / 9) } ∧
        nearestEven (1920 : ℚ) (apply_fit_dims 1920 1080 9 16).output_width ∧
        nearestEven ((1920 : ℚ) * 16 / 9) (apply_fit_dims 1920 1080 9 16).output_height)) :=
  ⟨by decide, by decide, by decide,
    C6_fit_dims 1920 1080 9 16 (by decide) (by decide) (by decide)⟩

/-- C7: the `apply_fill` output dimensions are
`round(cropWidth*videoWidth/2)*2` by `round(cropHeight*videoHeight/2)*2`, and both
are even. -/
theorem C7_fill_dims (crop_width_n crop_height_n video_width video_height : ℚ) :
    apply_fill_dims crop_width_n crop_height_n video_width video_height =
      { output_width := pyRound (crop_width_n * video_width / 2) * 2
        output_height := pyRound (crop_height_n * video_height / 2) * 2 } ∧
    Even (apply_fill_dims crop_width_n crop_height_n video_width video_height).output_width ∧
    Even (apply_fill_dims crop_width_n crop_height_n video_width video_height).output_height :=
  ⟨rfl, evenRound_even (crop_width_n * video_width),
    evenRound_even (crop_height_n * video_height)⟩

/-- C8: `trim_video` with `0 < end - start <= 1/frameRate` builds the freeze-frame
command — a single frame (`-frames:v 1`) sought at the (microsecond-formatted)
start; with `end - start > 1/frameRate` it builds the sub-range extraction whose
requested duration is `end - start` up to the microsecond formatting — within one
frame period for any frame rate up to 10^6 — and keeps audio unless the `no_audio`
flag is set.  The requested seek position is likewise within one frame period of
`start`. -/
theorem C8_trim_branches (start end_ fps : ℚ) (noAudioFlag : Bool)
    (hfps0 : 0 < fps) (hfps : fps ≤ 1000000) :
    (0 < end_ - start → end_ - start ≤ 1 / fps →
        trim_video_cmd start end_ fps noAudioFlag = .ok (.freeze (fmt6 start) 1)) ∧
    (1 / fps < end_ - start →
        trim_video_cmd start end_ fps noAudioFlag =
          .ok (.extract (fmt6 start) (fmt6 (end_ - start)) (!noAudioFlag)) ∧
        |fmt6 (end_ - start) - (end_ - start)| ≤ 1 / fps ∧
        |fmt6 start - start| ≤ 1 / fps) := by
  have hfrac : (1 : ℚ) / 2000000 ≤ 1 / fps := by
    have h1 : (1 : ℚ) / 1000000 ≤ 1 / fps :=
      one_div_le_one_div_of_le hfps0 hfps
    have h2 : (1 : ℚ) / 2000000 ≤ 1 / 1000000 := by norm_num
    linarith
  constructor
  · intro h1 h2
    unfold trim_video_cmd
    rw [if_neg (not_le.mpr h1), if_pos h2]
  · intro h
    have h0 : 0 < 1 / fps := by positivity
    have h1 : 0 < end_ - start := lt_trans h0 h
    refine ⟨?_, ?_, ?_⟩
    · unfold trim_video_cmd
      rw [if_neg (not_le.mpr h1), if_neg (not_le.mpr h)]
    · exact le_trans (fmt6_near (end_ - start)) hfrac
    · exact le_trans (fmt6_near start) hfrac

/-- C8 witness: at 30 fps, trimming `[0, 1]`. -/
theorem C8_trim_branches_witness :
    (0 : ℚ) < 30 ∧ (30 : ℚ) ≤ 1000000 ∧
    (((0 : ℚ) < 1 - 0 → (1 : ℚ) - 0 ≤ 1 / 30 →
        trim_video_cmd 0 1 30 false = .ok (.freeze (fmt6 0) 1)) ∧
    ((1 : ℚ) / 30 < 1 - 0 →
        trim_video_cmd 0 1 30 false =
          .ok (.extract (fmt6 0) (fmt6 (1 - 0)) (!false)) ∧
        |fmt6 (1 - 0) - ((1 : ℚ) - 0)| ≤ 1 / 30 ∧
        |fmt6 0 - (0 : ℚ)| ≤ 1 / 30)) :=
  ⟨by decide, by decide, C8_trim_branches 0 1 30 false (by decide) (by decide)⟩

/-- C1 (corrected): a scene whose type is neither `"fill"` nor `"fit"` makes
`_create_scene` raise the generic `ValueError("Unknown scene type: ...")` — not a
typed `UnsupportedSceneTypeError`, which does not exist in the code — inside an
`executor.map` worker whose result iterator is never consumed, so the exception is
discarded and the export does not abort: the remaining stages run best-effort
(their tool failures are caught and printed), and with a subtitles document
supplied the export finishes without raising anything while producing no output
file at the destination. -/
theorem C1_unknown_scene_type_swallowed (all_scenes : List SceneJson)
    (start end_ fps : ℚ) (content : String)
    (hstart : 0 ≤ start)
    (hpos : ∀ s ∈ all_scenes, 0 ≤ s.start_time)
    (hfps : 0 < fps)
    (hdur : 1 / fps < end_ - start)
    (hbad : ∃ s ∈ get_scenes start end_ all_scenes false,
        s.type ≠ "fill" ∧ s.type ≠ "fit")
    (hfont : hasFontData content = true) :
    (∀ s ∈ get_scenes start end_ all_scenes false,
        s.type ≠ "fill" → s.type ≠ "fit" → 0 < s.end_time - s.start_time →
        create_scene_result s = .error (.valueError ("Unknown scene type: " ++ s.type))) ∧
    export_run all_scenes start end_ fps (some content) =
      { raised := none, outputProduced := false } := by
  have hd0 : 0 < end_ - start := lt_trans (by positivity) hdur
  constructor
  · intro s _ h1 h2 h3
    unfold create_scene_result
    rw [if_neg (not_le.mpr h3), if_neg h1, if_neg h2]
  · obtain ⟨sb, hsb, hb1, hb2⟩ := hbad
    have hGf : get_scenes start end_ all_scenes false =
        all_scenes.filter (scene_in_range start end_) := by
      unfold get_scenes
      simp
    have hne : get_scenes start end_ all_scenes false ≠ [] := List.ne_nil_of_mem hsb
    obtain ⟨s0, rest, hcons⟩ := List.exists_cons_of_ne_nil hne
    have hs0 : 0 ≤ s0.start_time := by
      have hmem : s0 ∈ get_scenes start end_ all_scenes false := by
        rw [hcons]
        exact List.mem_cons_self _ _
      rw [hGf] at hmem
      exact hpos s0 (List.mem_of_mem_filter hmem)
    have hmax : ¬(end_ - max (start - s0.start_time) 0 ≤ 0) := by
      have h1 : max (start - s0.start_time) 0 ≤ start := max_le (by linarith) hstart
      push_neg
      linarith
    have hfb : scene_file_ok sb = false := by
      unfold scene_file_ok create_scene_result
      by_cases hdsb : sb.end_time - sb.start_time ≤ 0
      · rw [if_pos hdsb]
      · rw [if_neg hdsb, if_neg hb1, if_neg hb2]
    have hall : (((s0 :: rest).map scene_file_ok).all id) = false := by
      apply Bool.eq_false_iff.mpr
      intro hanyway
      rw [List.all_eq_true] at hanyway
      have hmem : scene_file_ok sb ∈ (s0 :: rest).map scene_file_ok :=
        List.mem_map_of_mem _ (hcons ▸ hsb)
      have hid := hanyway _ hmem
      rw [hfb] at hid
      exact Bool.false_ne_true hid
    have hsub : attach_subtitles_run content false = .ok false := by
      unfold attach_subtitles_run
      rw [hfont]
      simp
    unfold export_run
    rw [if_neg (not_le.mpr hd0), hcons]
    simp only [export_after_scenes]
    rw [if_neg hmax, if_pos hdur, hall]
    simp only [export_finish]
    rw [hsub]

/-- C1 witness: range `[0, 5]` at 30 fps over a single scene of unknown type
`"zoom"`, with a subtitles document carrying a font payload. -/
theorem C1_unknown_scene_type_swallowed_witness :
    (0 : ℚ) ≤ 0 ∧
    (∀ s ∈ ([⟨0, 10, "zoom"⟩] : List SceneJson), 0 ≤ s.start_time) ∧
    (0 : ℚ) < 30 ∧
    (1 : ℚ) / 30 < 5 - 0 ∧
    (∃ s ∈ get_scenes 0 5 [⟨0, 10, "zoom"⟩] false, s.type ≠ "fill" ∧ s.type ≠ "fit") ∧
    hasFontData "data: QUJD" = true ∧
    ((∀ s ∈ get_scenes 0 5 [⟨0, 10, "zoom"⟩] false,
        s.type ≠ "fill" → s.type ≠ "fit" → 0 < s.end_time - s.start_time →
        create_scene_result s = .error (.valueError ("Unknown scene type: " ++ s.type))) ∧
    export_run [⟨0, 10, "zoom"⟩] 0 5 30 (some "data: QUJD") =
      { raised := none, outputProduced := false }) :=
  ⟨by decide, by decide, by decide, by norm_num, by decide, by decide,
    C1_unknown_scene_type_swallowed [⟨0, 10, "zoom"⟩] 0 5 30 "data: QUJD"
      (by decide) (by decide) (by decide) (by norm_num) (by decide) (by decide)⟩

/-- C1 counterexample: with the unknown scene type `"zoom"` intersecting the range,
the export neither raises a typed `UnsupportedSceneTypeError` (no such type exists)
nor aborts at all — it runs to completion (`raised = none`) with no output file,
refuting "the export aborts with a typed UnsupportedSceneTypeError". -/
theorem C1_unknown_scene_type_counterexample :
    export_run [⟨0, 10, "zoom"⟩] 0 5 30 (some "data: QUJD") =
      { raised := none, outputProduced := false } := by
  have h1 : get_scenes 0 5 [⟨0, 10, "zoom"⟩] false = [⟨0, 10, "zoom"⟩] := by decide
  have hcs : create_scene_result ⟨0, 10, "zoom"⟩ =
      .error (.valueError ("Unknown scene type: " ++ "zoom")) := by
    unfold create_scene_result
    rw [if_neg (by norm_num : ¬((10 : ℚ) - 0 ≤ 0))]
    rfl
  have h2 : ((([⟨0, 10, "zoom"⟩] : List SceneJson)).map scene_file_ok).all id = false := by
    simp [scene_file_ok, hcs]
  have h3 : attach_subtitles_run "data: QUJD" false = .ok false := by
    unfold attach_subtitles_run
    rw [show hasFontData "data: QUJD" = true from by decide]
    simp
  unfold export_run
  rw [if_neg (by norm_num : ¬((5 : ℚ) - 0 ≤ 0)), h1]
  simp only [export_after_scenes]
  rw [if_neg (by norm_num : ¬((5 : ℚ) - max ((0 : ℚ) - 0) 0 ≤ 0)),
      if_pos (by norm_num : (1 : ℚ) / 30 < 5 - 0), h2]
  simp only [export_finish]
  rw [h3]

/-- C2 (corrected): in every core tool wrapper (trim, audio extract, audio attach,
concatenation, subtitle burn-in), a non-zero tool exit raises `CalledProcessError`
inside the wrapper, whose own `except` clause catches it and prints a diagnostic
message carrying the tool's stderr; the wrapper then returns normally and execution
continues.  No typed `ConcatError`/`ToolInvocationError` exists in the code and no
exception reaches the enclosing export. -/
theorem C2_tool_failure_printed_and_continues (exit_code : ℤ) (stderr out : String)
    (h : exit_code ≠ 0) :
    trim_video_toolCall exit_code stderr out =
      .printedError ("Error trimming video: " ++ stderr) ∧
    extract_audio_toolCall exit_code stderr out =
      .printedError ("Error extracting audio: " ++ stderr) ∧
    attach_audio_toolCall exit_code stderr out =
      .printedError ("Error attaching audio: " ++ stderr) ∧
    concatenate_videos_toolCall exit_code stderr =
      .printedError ("Error concatenating segments: " ++ stderr) ∧
    attach_subtitles_toolCall exit_code stderr out =
      .printedError ("Error attaching subtitles: " ++ stderr) := by
  unfold trim_video_toolCall extract_audio_toolCall attach_audio_toolCall
    concatenate_videos_toolCall attach_subtitles_toolCall subprocess_run_check
  simp only [if_neg h]
  refine ⟨?_, ?_, ?_, ?_, ?_⟩ <;> trivial

/-- C2 witness: exit code 1 with stderr `"boom"`. -/
theorem C2_tool_failure_printed_witness :
    (1 : ℤ) ≠ 0 ∧
    (trim_video_toolCall 1 "boom" "out.mp4" =
      .printedError ("Error trimming video: " ++ "boom") ∧
    extract_audio_toolCall 1 "boom" "out.mp4" =
      .printedError ("Error extracting audio: " ++ "boom") ∧
    attach_audio_toolCall 1 "boom" "out.mp4" =
      .printedError ("Error attaching audio: " ++ "boom") ∧
    concatenate_videos_toolCall 1 "boom" =
      .printedError ("Error concatenating segments: " ++ "boom") ∧
    attach_subtitles_toolCall 1 "boom" "out.mp4" =
      .printedError ("Error attaching subtitles: " ++ "boom")) :=
  ⟨by decide, C2_tool_failure_printed_and_continues 1 "boom" "out.mp4" (by decide)⟩

/-- C2 counterexample: a failing concatenation (exit 1) yields a *printed* error
message and a normal return — the caller keeps executing — rather than failing the
export with a typed `ConcatError` (which does not exist in the code), refuting
"a non-zero tool exit code causes the enclosing export to fail with a typed
error ... never downgraded to a warning with execution continuing". -/
theorem C2_concat_failure_counterexample :
    concatenate_videos_toolCall 1 "boom" =
      .printedError "Error concatenating segments: boom" := by decide

/-- C9 (corrected): when the subtitle document contains no `data: <base64>` line,
`attach_subtitles` raises a generic `ValueError` — not a typed
`MissingFontDataError`, which does not exist in the code — and its own
`except ValueError` clause immediately catches and prints it; the function returns
normally, no subtitled output is produced, and the export continues. -/
theorem C9_missing_font_swallowed (content : String) (inputExists : Bool)
    (h : hasFontData content = false) :
    attach_subtitles_run content inputExists = .ok false := by
  unfold attach_subtitles_run
  rw [h]
  simp

/-- C9 witness: the font-free subtitle document `"hello"`. -/
theorem C9_missing_font_swallowed_witness :
    hasFontData "hello" = false ∧ attach_subtitles_run "hello" true = .ok false :=
  ⟨by decide, C9_missing_font_swallowed "hello" true (by decide)⟩

/-- C9 counterexample: on the font-free document `"hello"` (with the input artifact
present), `attach_subtitles` returns normally with no output rather than failing
the export with a typed `MissingFontDataError`, refuting the claim. -/
theorem C9_missing_font_counterexample :
    attach_subtitles_run "hello" true = .ok false := by
  unfold attach_subtitles_run
  rw [show hasFontData "hello" = false from by decide]
  simp

/-- C10: when the scene filter returns an empty list, `Exporter.export` reaches the
post-concatenation trim, where evaluating `scenes[0]["start_time"]` raises an
unhandled `IndexError` — not any typed error of the spec's taxonomy — and no output
is produced. -/
theorem C10_empty_filter_index_error (all_scenes : List SceneJson)
    (start end_ fps : ℚ) (subtitles : Option String)
    (hdur : 0 < end_ - start)
    (hempty : get_scenes start end_ all_scenes false = []) :
    export_run all_scenes start end_ fps subtitles =
      { raised := some .indexError, outputProduced := false } := by
  unfold export_run
  rw [if_neg (not_le.mpr hdur), hempty]
  rfl

/-- C10 witness: range `[0, 5]` with the single scene `[10, 12]` lying entirely
outside it. -/
theorem C10_empty_filter_index_error_witness :
    (0 : ℚ) < 5 - 0 ∧
    get_scenes 0 5 [⟨10, 12, "fill"⟩] false = [] ∧
    export_run [⟨10, 12, "fill"⟩] 0 5 30 none =
      { raised := some .indexError, outputProduced := false } :=
  ⟨by norm_num, by decide,
    C10_empty_filter_index_error [⟨10, 12, "fill"⟩] 0 5 30 none (by norm_num) (by decide)⟩
